import Mathlib

/-!
Verification of the EV Fleet Predictive Maintenance backend
(`app/main.py`): a FastAPI glue layer exposing a pre-trained predictor
over HTTP.  We shallowly embed the request handlers, the lifespan hook
and the shared `predictor_instance` dictionary, and prove the spec's
claims about them.
-/

namespace EVMaint

/-- Python values as they occur in the dictionaries this service
inspects: the handler only ever compares against string literals and
echoes everything else verbatim, so a flat value type with an opaque
`obj` constructor for anything richer is a faithful carrier.
`Value.none` is Python's `None`. -/
inductive Value where
  | str (s : String)
  | int (i : Int)
  | float (q : ℚ)
  | bool (b : Bool)
  | none
  | obj (tag : Nat)
deriving DecidableEq, Repr

/-- A Python dict with string keys (insertion-ordered association list;
keys are unique in any dict produced by the embedded operations). -/
abbrev PyDict := List (String × Value)

/-- Association-list lookup: `d[k]` as an `Option` (generic so it also
serves the `predictor_instance` dict, whose values are predictors). -/
def alookup {β : Type} : List (String × β) → String → Option β
  | [], _ => Option.none
  | (k, v) :: rest, key => if k = key then Option.some v else alookup rest key

/-- Python's `dict.get(k)`: the stored value, or `None` when the key is
absent. -/
def pyget (d : PyDict) (key : String) : Value :=
  match alookup d key with
  | Option.some v => v
  | Option.none => Value.none

/-- Python's `d[k] = v`: replace the value at an existing key, else
append a new entry. -/
def aset {β : Type} : List (String × β) → String → β → List (String × β)
  | [], k, v => [(k, v)]
  | (k', v') :: rest, k, v =>
      if k' = k then (k, v) :: rest else (k', v') :: aset rest k v

/-- The external `EVMaintenancePredictor` collaborator (from
`app.inference`, outside the shown code): an opaque black box with a
fallible `predict` operation (`Except` models a raised exception, the
`String` its stringification) and the introspectable attributes read by
`/model/info`. -/
structure Predictor where
  predict : PyDict → Except String PyDict
  feature_columns : List String
  soh_model_name : String
  thermal_model_name : String

/-- The process-wide `predictor_instance` dictionary of `app/main.py`,
mapping string keys to predictors. -/
abbrev PredDict := List (String × Predictor)

/-- Outcome of a request handler: a 200 body, or an `HTTPException`
with a status code and a `detail` value. -/
inductive Response where
  | ok (body : PyDict)
  | httpError (code : Nat) (detail : Value)
deriving DecidableEq, Repr

/-- The `POST /predict` handler `predict_maintenance` of `app/main.py`:
look up the shared predictor (503 if absent), forward the validated
vehicle dict to `predictor.predict`, classify an `error` status as 400
with the reported `error_message`, echo a successful result verbatim,
and wrap any other exception as 500 with the stringified cause
(`HTTPException`s are re-raised unchanged by the
`except HTTPException: raise` clause). -/
def predict_maintenance (inst : PredDict) (vehicle_dict : PyDict) : Response :=
  match alookup inst "predictor" with
  | Option.none =>
      Response.httpError 503 (Value.str "Model not loaded. Server may be starting up.")
  | Option.some predictor =>
      match predictor.predict vehicle_dict with
      | Except.error e =>
          Response.httpError 500 (Value.str ("Prediction failed: " ++ e))
      | Except.ok result =>
          if pyget result "status" = Value.str "error" then
            Response.httpError 400 (pyget result "error_message")
          else
            Response.ok result

/-- Instrumented variant of `predict_maintenance` that additionally
reports whether `predictor.predict` was invoked during the request. -/
def predict_maintenance_traced (inst : PredDict) (vehicle_dict : PyDict) :
    Response × Bool :=
  match alookup inst "predictor" with
  | Option.none =>
      (Response.httpError 503 (Value.str "Model not loaded. Server may be starting up."),
       false)
  | Option.some predictor =>
      (match predictor.predict vehicle_dict with
       | Except.error e =>
           Response.httpError 500 (Value.str ("Prediction failed: " ++ e))
       | Except.ok result =>
           if pyget result "status" = Value.str "error" then
             Response.httpError 400 (pyget result "error_message")
           else
             Response.ok result,
       true)

/-- The `GET /health` handler `health_check` of `app/main.py`.  It reads
no shared state; the configured `MODEL_VERSION` (from `app.config`) and
the wall-clock timestamp are passed in as parameters. -/
def health_check (model_version : String) (now : String) : PyDict :=
  [("status", Value.str "healthy"),
   ("model_version", Value.str model_version),
   ("timestamp", Value.str now)]

/-- The `GET /` handler `root` of `app/main.py`: a static welcome
payload (the nested `endpoints` map is kept flat here as three
dotted keys; the handler reads no shared state). -/
def root (model_version : String) : PyDict :=
  [("message", Value.str "EV Predictive Maintenance"),
   ("version", Value.str model_version),
   ("status", Value.str "running"),
   ("docs", Value.str "/docs"),
   ("endpoints.health", Value.str "GET /health"),
   ("endpoints.predict", Value.str "POST /predict"),
   ("endpoints.model_info", Value.str "GET /model/info")]

/-- The shape of the `GET /model/info` success body. -/
structure ModelInfo where
  model_version : String
  features : List String
  soh_predictor : String
  thermal_predictor : String
  soh_critical : ℚ
  soh_warning : ℚ
  rul_urgent : Int
  thermal_danger : ℚ
deriving DecidableEq, Repr

/-- Outcome of the `/model/info` handler. -/
inductive InfoResponse where
  | ok (info : ModelInfo)
  | httpError (code : Nat) (detail : Value)
deriving DecidableEq, Repr

/-- The `GET /model/info` handler `get_model_info` of `app/main.py`:
503 when the predictor is absent, otherwise the model version, the
predictor's `feature_columns`, the two model type names and the fixed
threshold table. -/
def get_model_info (model_version : String) (inst : PredDict) : InfoResponse :=
  match alookup inst "predictor" with
  | Option.none => InfoResponse.httpError 503 (Value.str "Models not loaded")
  | Option.some predictor =>
      InfoResponse.ok
        { model_version := model_version
          features := predictor.feature_columns
          soh_predictor := predictor.soh_model_name
          thermal_predictor := predictor.thermal_model_name
          soh_critical := 0.60
          soh_warning := 0.80
          rul_urgent := 100
          thermal_danger := 0.70 }

/-- The startup half of the `lifespan` hook: construct the predictor
(`construct` is the outcome of `EVMaintenancePredictor()`); on success
store it under the key `"predictor"`, on any failure re-raise so that
process startup aborts. -/
def startup (construct : Except String Predictor) (inst : PredDict) :
    Except String PredDict :=
  match construct with
  | Except.ok p => Except.ok (aset inst "predictor" p)
  | Except.error e => Except.error e

/-- The shutdown half of the `lifespan` hook:
`predictor_instance.clear()`. -/
def shutdown (_inst : PredDict) : PredDict := []

/-- State-passing views of the four request handlers: each handler of
`app/main.py` contains no assignment to `predictor_instance`, so its
effect on the shared dict is the identity. -/
def predict_maintenance_st (inst : PredDict) (vehicle_dict : PyDict) :
    PredDict × Response :=
  (inst, predict_maintenance inst vehicle_dict)

/-- State-passing view of `root` (reads no shared state). -/
def root_st (model_version : String) (inst : PredDict) : PredDict × PyDict :=
  (inst, root model_version)

/-- State-passing view of `health_check` (reads no shared state). -/
def health_check_st (model_version now : String) (inst : PredDict) :
    PredDict × PyDict :=
  (inst, health_check model_version now)

/-- State-passing view of `get_model_info`. -/
def get_model_info_st (model_version : String) (inst : PredDict) :
    PredDict × InfoResponse :=
  (inst, get_model_info model_version inst)

/-- States of the shared `predictor_instance` dict reachable in one
process: the initial empty dict, a successful startup, a shutdown, or
any request handled in between. -/
inductive Reachable : PredDict → Prop where
  | init : Reachable []
  | startup_ok (p : Predictor) (st : PredDict) :
      Reachable st → Reachable (aset st "predictor" p)
  | shutdown_step (st : PredDict) : Reachable st → Reachable (shutdown st)
  | predict_step (st : PredDict) (v : PyDict) :
      Reachable st → Reachable (predict_maintenance_st st v).1
  | root_step (mv : String) (st : PredDict) :
      Reachable st → Reachable (root_st mv st).1
  | health_step (mv now : String) (st : PredDict) :
      Reachable st → Reachable (health_check_st mv now st).1
  | info_step (mv : String) (st : PredDict) :
      Reachable st → Reachable (get_model_info_st mv st).1

/-- Modelled from the spec: the `VehicleData` schema lives in
`app/schemas.py`, which is not under `src/`.  The spec says the input
record is "keyed at minimum by a `Vehicle_ID` identifier" and that
"exact field validation [is] delegated to that schema"; we model the
schema check as requiring the `Vehicle_ID` key to be present. -/
def validateVehicleData (body : PyDict) : Except Value PyDict :=
  match alookup body "Vehicle_ID" with
  | Option.none => Except.error (Value.str "field required: Vehicle_ID")
  | Option.some _ => Except.ok body

/-- Modelled from the spec: the hosting framework validates the request
body against `VehicleData` before invoking the handler; a validation
failure is returned as a 422 validation-error response and the handler
(hence the predictor) is never entered.  The boolean reports whether
`predictor.predict` was invoked. -/
def route_predict (inst : PredDict) (body : PyDict) : Response × Bool :=
  match validateVehicleData body with
  | Except.error d => (Response.httpError 422 d, false)
  | Except.ok v => predict_maintenance_traced inst v

/-- Example predictor whose `predict` reports an error status with a
message (used to instantiate theorems with hypotheses). -/
def errPredictor : Predictor :=
  { predict := fun _ =>
      Except.ok [("status", Value.str "error"),
                 ("error_message", Value.str "bad input")]
    feature_columns := ["SOH", "Battery_Temp"]
    soh_model_name := "XGBRegressor"
    thermal_model_name := "RandomForestClassifier" }

/-- Example predictor whose `predict` reports an error status but omits
`error_message`. -/
def bareErrPredictor : Predictor :=
  { predict := fun _ => Except.ok [("status", Value.str "error")]
    feature_columns := []
    soh_model_name := "XGBRegressor"
    thermal_model_name := "RandomForestClassifier" }

/-- Example predictor whose `predict` succeeds. -/
def okPredictor : Predictor :=
  { predict := fun _ =>
      Except.ok [("status", Value.str "success"),
                 ("Vehicle_ID", Value.str "EV001"),
                 ("soh_prediction", Value.float 0.87)]
    feature_columns := ["SOH", "Battery_Temp", "Charge_Cycles"]
    soh_model_name := "XGBRegressor"
    thermal_model_name := "RandomForestClassifier" }

/-- Example predictor whose `predict` raises. -/
def raisePredictor : Predictor :=
  { predict := fun _ => Except.error "boom"
    feature_columns := []
    soh_model_name := "XGBRegressor"
    thermal_model_name := "RandomForestClassifier" }

/-- Python's `d.get(k) == s` for a string literal `s` holds exactly when
the key is present with that string value (an absent key yields `None`,
which is not equal to any string). -/
theorem pyget_str_iff (d : PyDict) (k s : String) :
    pyget d k = Value.str s ↔ alookup d k = Option.some (Value.str s) := by
  unfold pyget
  cases h : alookup d k with
  | none => simp
  | some v => simp

/-- Python's `d.get(k)` is `None` when the key is absent. -/
theorem pyget_of_absent (d : PyDict) (k : String)
    (h : alookup d k = Option.none) : pyget d k = Value.none := by
  unfold pyget
  rw [h]

/-- Claim C1: every `/predict` request made while the predictor instance
is absent fails with a 503 response whose detail is the "not loaded"
message, and `predictor.predict` is not invoked. -/
theorem predict_absent_503 (inst : PredDict) (v : PyDict)
    (h : alookup inst "predictor" = Option.none) :
    predict_maintenance_traced inst v =
      (Response.httpError 503
        (Value.str "Model not loaded. Server may be starting up."), false) ∧
    predict_maintenance inst v =
      Response.httpError 503
        (Value.str "Model not loaded. Server may be starting up.") := by
  unfold predict_maintenance_traced predict_maintenance
  rw [h]
  exact ⟨rfl, rfl⟩

/-- Witness for C1 at the initial (empty) instance dict. -/
theorem predict_absent_503_witness :
    predict_maintenance_traced [] [("Vehicle_ID", Value.str "EV001")] =
      (Response.httpError 503
        (Value.str "Model not loaded. Server may be starting up."), false) :=
  (predict_absent_503 [] [("Vehicle_ID", Value.str "EV001")] rfl).1

/-- Claim C2: when the predictor is loaded and its `predict` call
returns a mapping whose `status` field equals `"error"`, `/predict`
fails with a 400 response whose detail is exactly the mapping's
reported `error_message` value. -/
theorem predict_error_status_400 (inst : PredDict) (v : PyDict)
    (p : Predictor) (result : PyDict)
    (hp : alookup inst "predictor" = Option.some p)
    (hr : p.predict v = Except.ok result)
    (hs : pyget result "status" = Value.str "error") :
    predict_maintenance inst v =
      Response.httpError 400 (pyget result "error_message") := by
  simp [predict_maintenance, hp, hr, hs]

/-- Witness for C2 at a predictor reporting `status="error"` with
message `"bad input"`. -/
theorem predict_error_status_400_witness :
    predict_maintenance [("predictor", errPredictor)]
        [("Vehicle_ID", Value.str "EV001")] =
      Response.httpError 400 (Value.str "bad input") :=
  predict_error_status_400 [("predictor", errPredictor)]
    [("Vehicle_ID", Value.str "EV001")] errPredictor
    [("status", Value.str "error"), ("error_message", Value.str "bad input")]
    rfl rfl rfl

/-- Claim C3: when the predictor is loaded and its `predict` call
succeeds (does not report an error status), `/predict` returns a 200
response whose body is the predictor's result echoed verbatim. -/
theorem predict_success_200 (inst : PredDict) (v : PyDict)
    (p : Predictor) (result : PyDict)
    (hp : alookup inst "predictor" = Option.some p)
    (hr : p.predict v = Except.ok result)
    (hs : pyget result "status" ≠ Value.str "error") :
    predict_maintenance inst v = Response.ok result := by
  simp [predict_maintenance, hp, hr, hs]

/-- Witness for C3 at a predictor returning `status="success"`. -/
theorem predict_success_200_witness :
    predict_maintenance [("predictor", okPredictor)]
        [("Vehicle_ID", Value.str "EV001")] =
      Response.ok [("status", Value.str "success"),
                   ("Vehicle_ID", Value.str "EV001"),
                   ("soh_prediction", Value.float 0.87)] :=
  predict_success_200 [("predictor", okPredictor)]
    [("Vehicle_ID", Value.str "EV001")] okPredictor
    [("status", Value.str "success"),
     ("Vehicle_ID", Value.str "EV001"),
     ("soh_prediction", Value.float 0.87)]
    rfl rfl (by decide)

/-- Claim C4: for `/predict`, an exception raised by the predictor
(other than the already-classified 503 and 400 failures) is converted
to a 500 response whose detail includes the stringified cause, and
conversely a 500 response arises only from such an exception — the 503
and 400 failures are never rewrapped as 500. -/
theorem predict_unexpected_500 (inst : PredDict) (v : PyDict) :
    (∀ p e, alookup inst "predictor" = Option.some p →
        p.predict v = Except.error e →
        predict_maintenance inst v =
          Response.httpError 500 (Value.str ("Prediction failed: " ++ e))) ∧
    (∀ d, predict_maintenance inst v = Response.httpError 500 d →
        ∃ p e, alookup inst "predictor" = Option.some p ∧
          p.predict v = Except.error e ∧
          d = Value.str ("Prediction failed: " ++ e)) := by
  constructor
  · intro p e hp he
    simp [predict_maintenance, hp, he]
  · intro d hd
    cases hal : alookup inst "predictor" with
    | none =>
        simp [predict_maintenance, hal] at hd
    | some p =>
        cases hpr : p.predict v with
        | error e =>
            simp [predict_maintenance, hal, hpr] at hd
            exact ⟨p, e, rfl, hpr, hd.symm⟩
        | ok result =>
            by_cases hs : pyget result "status" = Value.str "error"
            · simp [predict_maintenance, hal, hpr, hs] at hd
            · simp [predict_maintenance, hal, hpr, hs] at hd

/-- Witness for C4 at a predictor that raises `"boom"`. -/
theorem predict_unexpected_500_witness :
    predict_maintenance [("predictor", raisePredictor)]
        [("Vehicle_ID", Value.str "EV001")] =
      Response.httpError 500 (Value.str "Prediction failed: boom") :=
  (predict_unexpected_500 [("predictor", raisePredictor)]
      [("Vehicle_ID", Value.str "EV001")]).1
    raisePredictor "boom" rfl rfl

/-- Claim C5: every `/health` request succeeds with `status="healthy"`
and a `model_version` equal to the configured `MODEL_VERSION`; the
handler reads no predictor state, so this holds regardless of whether
the predictor is loaded. -/
theorem health_always_healthy (model_version now : String) :
    pyget (health_check model_version now) "status" = Value.str "healthy" ∧
    pyget (health_check model_version now) "model_version" =
      Value.str model_version := by
  exact ⟨rfl, rfl⟩

/-- Claim C6: `/model/info` fails with 503 when the predictor is
absent; when it is loaded it returns the predictor's `feature_columns`
unmodified together with the fixed threshold table soh_critical=0.60,
soh_warning=0.80, rul_urgent=100, thermal_danger=0.70. -/
theorem model_info_contract (model_version : String) (inst : PredDict) :
    (alookup inst "predictor" = Option.none →
      get_model_info model_version inst =
        InfoResponse.httpError 503 (Value.str "Models not loaded")) ∧
    (∀ p, alookup inst "predictor" = Option.some p →
      get_model_info model_version inst =
        InfoResponse.ok
          { model_version := model_version
            features := p.feature_columns
            soh_predictor := p.soh_model_name
            thermal_predictor := p.thermal_model_name
            soh_critical := 0.60
            soh_warning := 0.80
            rul_urgent := 100
            thermal_danger := 0.70 }) := by
  constructor
  · intro h
    unfold get_model_info
    rw [h]
  · intro p h
    unfold get_model_info
    rw [h]

/-- Witness for C6: the 503 case at the empty dict and the loaded case
at a concrete predictor. -/
theorem model_info_contract_witness :
    get_model_info "1.0.0" [] =
      InfoResponse.httpError 503 (Value.str "Models not loaded") ∧
    get_model_info "1.0.0" [("predictor", okPredictor)] =
      InfoResponse.ok
        { model_version := "1.0.0"
          features := ["SOH", "Battery_Temp", "Charge_Cycles"]
          soh_predictor := "XGBRegressor"
          thermal_predictor := "RandomForestClassifier"
          soh_critical := 0.60
          soh_warning := 0.80
          rul_urgent := 100
          thermal_danger := 0.70 } :=
  ⟨(model_info_contract "1.0.0" []).1 rfl,
   (model_info_contract "1.0.0" [("predictor", okPredictor)]).2 okPredictor rfl⟩

/-- Claim C7: a predictor-construction failure during startup is
re-raised so that startup aborts; on success (from the initial empty
dict) exactly one predictor is stored; and shutdown clears the stored
reference. -/
theorem lifespan_contract :
    (∀ e inst, startup (Except.error e) inst = Except.error e) ∧
    (∀ p, startup (Except.ok p) [] = Except.ok [("predictor", p)]) ∧
    (∀ inst, shutdown inst = []) :=
  ⟨fun _ _ => rfl, fun _ => rfl, fun _ => rfl⟩

/-- Claim C8: every reachable state of the shared `predictor_instance`
dict is either empty or holds exactly one predictor under the key
`"predictor"` (at most one predictor per process, no partial-load
state), and none of the four request handlers mutates the shared
state. -/
theorem predictor_state_invariant (st : PredDict) (h : Reachable st) :
    (st = [] ∨ ∃ p, st = [("predictor", p)]) ∧
    (∀ v, (predict_maintenance_st st v).1 = st) ∧
    (∀ mv, (root_st mv st).1 = st) ∧
    (∀ mv now, (health_check_st mv now st).1 = st) ∧
    (∀ mv, (get_model_info_st mv st).1 = st) := by
  induction h with
  | init =>
      exact ⟨Or.inl rfl, fun _ => rfl, fun _ => rfl, fun _ _ => rfl, fun _ => rfl⟩
  | startup_ok p st' _ ih =>
      refine ⟨?_, fun _ => rfl, fun _ => rfl, fun _ _ => rfl, fun _ => rfl⟩
      rcases ih.1 with h0 | ⟨q, hq⟩
      · subst h0
        exact Or.inr ⟨p, rfl⟩
      · subst hq
        exact Or.inr ⟨p, rfl⟩
  | shutdown_step st' _ _ =>
      exact ⟨Or.inl rfl, fun _ => rfl, fun _ => rfl, fun _ _ => rfl, fun _ => rfl⟩
  | predict_step st' v _ ih => exact ih
  | root_step mv st' _ ih => exact ih
  | health_step mv now st' _ ih => exact ih
  | info_step mv st' _ ih => exact ih

/-- Witness for C8 at a state reached by startup from the initial
state, after handling one `/predict` request. -/
theorem predictor_state_invariant_witness :
    ((predict_maintenance_st [("predictor", okPredictor)]
        [("Vehicle_ID", Value.str "EV001")]).1 = [("predictor", okPredictor)]) ∧
    (([("predictor", okPredictor)] : PredDict) = [] ∨
      ∃ p, ([("predictor", okPredictor)] : PredDict) = [("predictor", p)]) :=
  ⟨(predictor_state_invariant [("predictor", okPredictor)]
      (Reachable.startup_ok okPredictor [] Reachable.init)).2.1
      [("Vehicle_ID", Value.str "EV001")],
   (predictor_state_invariant [("predictor", okPredictor)]
      (Reachable.startup_ok okPredictor [] Reachable.init)).1⟩

/-- Claim C9 (spec-modelled schema): a `/predict` request whose body
fails `VehicleData` validation (here: missing the `Vehicle_ID` field)
is rejected with a validation error (422, not 500) before the handler
runs, and `predictor.predict` is never invoked. -/
theorem schema_rejects_before_predict (inst : PredDict) (body : PyDict)
    (h : alookup body "Vehicle_ID" = Option.none) :
    route_predict inst body =
      (Response.httpError 422 (Value.str "field required: Vehicle_ID"), false) := by
  unfold route_predict validateVehicleData
  rw [h]

/-- Witness for C9 at an empty body with a loaded predictor. -/
theorem schema_rejects_before_predict_witness :
    route_predict [("predictor", okPredictor)] [("Battery_Temp", Value.float 31)] =
      (Response.httpError 422 (Value.str "field required: Vehicle_ID"), false) :=
  schema_rejects_before_predict [("predictor", okPredictor)]
    [("Battery_Temp", Value.float 31)] rfl

/-- Claim C10: with the predictor loaded and `predict` returning a
mapping `result` without raising, the 400 branch is taken exactly when
`result`'s `status` key is present with the exact string `"error"`
(any other value, including an absent key, yields the 200 echo), and
when the 400 branch is taken with `error_message` absent the response
detail is `None`. -/
theorem predict_error_branch_iff (inst : PredDict) (v : PyDict)
    (p : Predictor) (result : PyDict)
    (hp : alookup inst "predictor" = Option.some p)
    (hr : p.predict v = Except.ok result) :
    ((∃ d, predict_maintenance inst v = Response.httpError 400 d) ↔
        alookup result "status" = Option.some (Value.str "error")) ∧
    (alookup result "status" ≠ Option.some (Value.str "error") →
        predict_maintenance inst v = Response.ok result) ∧
    (alookup result "status" = Option.some (Value.str "error") →
        alookup result "error_message" = Option.none →
        predict_maintenance inst v = Response.httpError 400 Value.none) := by
  have hmain : predict_maintenance inst v =
      if pyget result "status" = Value.str "error" then
        Response.httpError 400 (pyget result "error_message")
      else Response.ok result := by
    simp [predict_maintenance, hp, hr]
  refine ⟨?_, ?_, ?_⟩
  · constructor
    · rintro ⟨d, hd⟩
      rw [hmain] at hd
      by_cases hs : pyget result "status" = Value.str "error"
      · exact (pyget_str_iff result "status" "error").mp hs
      · rw [if_neg hs] at hd
        exact Response.noConfusion hd
    · intro hs
      refine ⟨pyget result "error_message", ?_⟩
      rw [hmain, if_pos ((pyget_str_iff result "status" "error").mpr hs)]
  · intro hs
    rw [hmain,
      if_neg (fun hc => hs ((pyget_str_iff result "status" "error").mp hc))]
  · intro hs hm
    rw [hmain, if_pos ((pyget_str_iff result "status" "error").mpr hs),
      pyget_of_absent result "error_message" hm]

/-- Witness for C10 at a predictor whose result has `status="error"`
and no `error_message`: the detail is `None`. -/
theorem predict_error_branch_iff_witness :
    predict_maintenance [("predictor", bareErrPredictor)]
        [("Vehicle_ID", Value.str "EV001")] =
      Response.httpError 400 Value.none :=
  (predict_error_branch_iff [("predictor", bareErrPredictor)]
      [("Vehicle_ID", Value.str "EV001")] bareErrPredictor
      [("status", Value.str "error")] rfl rfl).2.2 rfl rfl

end EVMaint
